import Mathlib

/-!
Verification of the Subject Viewer interaction engine of the
anti-slavery-manuscripts repository (`src/containers/SubjectViewer.jsx`).

The component's coordinate mapper, mode-routed mouse handlers, zoom tools
and viewport sizing are embedded shallowly over the rationals.  The
rotation angle enters the source only through `Math.cos` / `Math.sin` of
the degree-to-radian conversion, so transforms carry the pair
`(cosRot, sinRot)` of those trigonometric values, constrained by
`cosRot ^ 2 + sinRot ^ 2 = 1` where a theorem needs it.
-/

namespace ASM

/-- A 2D point `{x, y}`, as produced by `getPointerXY` and consumed by the
annotation and crop layers. -/
@[ext]
structure Pt where
  x : ℚ
  y : ℚ
deriving DecidableEq, Repr

/-- A `{width, height}` pair (`viewerSize`, `imageSize`). -/
structure Size where
  width : ℚ
  height : ℚ
deriving DecidableEq, Repr

/-- Result of `getBoundingBox` (`svg.getBoundingClientRect()`): the viewer's
on-screen rectangle. -/
structure BoundingBox where
  left : ℚ
  top : ℚ
  width : ℚ
  height : ℚ
deriving DecidableEq, Repr

/-- `INPUT_STATE` from SubjectViewer.jsx. -/
inductive INPUT_STATE
  | IDLE
  | ACTIVE
deriving DecidableEq, Repr

/-- `SUBJECTVIEWER_STATE` from the subject-viewer duck, as used by the
component's mode routing. -/
inductive SUBJECTVIEWER_STATE
  | NAVIGATING
  | ANNOTATING
  | CROPPING
deriving DecidableEq, Repr

/-- One entry of `e.touches`. A field is `none` when the event object does
not carry it. -/
structure Touch where
  clientX : Option ℚ
  clientY : Option ℚ
deriving DecidableEq, Repr

/-- A mouse/touch event as seen by the handlers: possibly-missing
`clientX`/`clientY` and a (possibly empty) `touches` list. -/
structure PointerEvent where
  clientX : Option ℚ
  clientY : Option ℚ
  touches : List Touch
deriving DecidableEq, Repr

/-- JavaScript truthiness of a possibly-missing numeric field:
`undefined` and `0` are falsy, every other number is truthy. -/
def jsTruthy : Option ℚ → Bool
  | none => false
  | some v => decide (v ≠ 0)

/-- `ZOOM_STEP = 0.1` from SubjectViewer.jsx. -/
def ZOOM_STEP : ℚ := 1/10

/-- `this.tmpTransform`: the drag-start snapshot of the transform,
captured by `onMouseDown` in NAVIGATING mode. -/
structure TmpTransform where
  scale : ℚ
  translateX : ℚ
  translateY : ℚ
deriving DecidableEq, Repr

/-- `annotationInProgress` prop: its `points` field is itself optional,
because `onMouseUp` checks `annotationInProgress.points` for truthiness
before reading `.length`. -/
structure AnnoInProgress where
  points : Option (List Pt)
deriving DecidableEq, Repr

/-- The Redux-supplied props the handlers read. The rotation angle is
represented by the pair `(cosRot, sinRot)` of its cosine and sine after
the source's degree-to-radian conversion. -/
structure Props where
  scaling : ℚ
  translationX : ℚ
  translationY : ℚ
  cosRot : ℚ
  sinRot : ℚ
  viewerSize : Size
  imageSize : Size
  viewerState : SUBJECTVIEWER_STATE
  annotationInProgress : Option AnnoInProgress
  reminderSeen : Bool
  frame : ℕ
deriving DecidableEq, Repr

/-- `this.pointer`: raw pointer tracking. -/
structure PointerTracker where
  start : Pt
  now : Pt
  state : INPUT_STATE
deriving DecidableEq, Repr

/-- The component's instance state: `this.pointer`, `this.rectangleStart`,
`this.tmpTransform` (`null`/`false` both modelled as `none`), and the React
state fields the handlers touch. -/
structure CompState where
  pointer : PointerTracker
  rectangleStart : Pt
  cropping : INPUT_STATE
  tmpTransform : Option TmpTransform
  mouseInViewer : Bool
  popupOpen : Bool
deriving DecidableEq, Repr

/-- Redux actions dispatched by the component. `addAnnoPoint` and
`completeAnno` stand for the `addAnnotationPoint` and `completeAnnotation`
action creators of the annotations duck. -/
inductive Action
  | setScaling (s : ℚ)
  | setTranslation (x y : ℚ)
  | setViewerState (v : SUBJECTVIEWER_STATE)
  | addAnnoPoint (x y : ℚ) (frame : ℕ)
  | completeAnno
  | updateViewerSize (w h : ℚ)
deriving DecidableEq, Repr

/-- `getPointerXY(e)`: client coordinates (mouse if truthy, else first
touch if truthy, else `0`) minus the bounding box's top-left, times the
1:1 size ratios. -/
def getPointerXY (bbox : BoundingBox) (e : PointerEvent) : Pt :=
  let fromTouch : ℚ × ℚ :=
    match e.touches with
    | t :: _ =>
        if jsTruthy t.clientX && jsTruthy t.clientY then
          (t.clientX.getD 0, t.clientY.getD 0)
        else (0, 0)
    | [] => (0, 0)
  let client : ℚ × ℚ :=
    if jsTruthy e.clientX && jsTruthy e.clientY then
      (e.clientX.getD 0, e.clientY.getD 0)
    else fromTouch
  let sizeRatioX : ℚ := 1
  let sizeRatioY : ℚ := 1
  ⟨(client.1 - bbox.left) * sizeRatioX, (client.2 - bbox.top) * sizeRatioY⟩

/-- `getPointerXYOnImage(e)`: inverts the render transform. Aborts (after
alerting the user, a side effect outside this embedding) and returns the
pre-inversion coordinate when `scaling` is `0`. The source computes
`cos(-θ)` and `sin(-θ)` of the rotation; with `(cosRot, sinRot)` the trig
values of `θ` these are `cosRot` and `-sinRot`. -/
def getPointerXYOnImage (props : Props) (bbox : BoundingBox) (e : PointerEvent) : Pt :=
  let pointerXY := getPointerXY bbox e
  if props.scaling = 0 then
    pointerXY
  else
    let inputX := pointerXY.x - props.viewerSize.width / 2
    let inputY := pointerXY.y - props.viewerSize.height / 2
    let inputX := inputX / props.scaling - props.translationX
    let inputY := inputY / props.scaling - props.translationY
    let cosR := props.cosRot
    let sinR := -props.sinRot
    let tmpX := inputX
    let tmpY := inputY
    let inputX := tmpX * cosR - tmpY * sinR
    let inputY := tmpX * sinR + tmpY * cosR
    ⟨inputX + props.imageSize.width / 2, inputY + props.imageSize.height / 2⟩

/-- The forward render transform, from `render`'s
`scale(s) translate(tx, ty) rotate(θ)` group transform applied by SVG
right-to-left to an image point drawn center-origin, composed with the
center-origin viewBox set by `updateSize`: the viewport-local device
position of image point `p`. -/
def toDeviceSpace (props : Props) (p : Pt) : Pt :=
  let x0 := p.x - props.imageSize.width / 2
  let y0 := p.y - props.imageSize.height / 2
  let x1 := x0 * props.cosRot - y0 * props.sinRot
  let y1 := x0 * props.sinRot + y0 * props.cosRot
  let x2 := x1 + props.translationX
  let y2 := y1 + props.translationY
  let x3 := x2 * props.scaling
  let y3 := y2 * props.scaling
  ⟨x3 + props.viewerSize.width / 2, y3 + props.viewerSize.height / 2⟩

/-- The truthiness test guarding `completeAnnotation` in `onMouseUp`:
`annotationInProgress && annotationInProgress.points && points.length >= 1`. -/
def hasInProgressPoint (props : Props) : Bool :=
  match props.annotationInProgress with
  | some a =>
      match a.points with
      | some pts => decide (1 ≤ pts.length)
      | none => false
  | none => false

/-- `onMouseDown(e)`: in NAVIGATING, start a drag and snapshot the
transform; in ANNOTATING, only swallow the event; in CROPPING, record the
image-space rectangle start and set the cropping flag ACTIVE. Returns the
new instance state and the dispatched actions. -/
def onMouseDown (props : Props) (bbox : BoundingBox) (st : CompState) (e : PointerEvent) :
    CompState × List Action :=
  match props.viewerState with
  | .NAVIGATING =>
      let pointerXY := getPointerXY bbox e
      ({ st with
          pointer := { state := .ACTIVE, start := pointerXY, now := pointerXY },
          tmpTransform :=
            some ⟨props.scaling, props.translationX, props.translationY⟩ }, [])
  | .ANNOTATING => (st, [])
  | .CROPPING =>
      let pointerXY := getPointerXYOnImage props bbox e
      ({ st with rectangleStart := pointerXY, cropping := .ACTIVE }, [])

/-- `onMouseUp(e)`: shows the annotation reminder popup when needed, then
routes by mode. NAVIGATING ends the drag (phase IDLE, snapshot set to
`false`, modelled `none`); ANNOTATING appends an image-space point and,
when the in-progress annotation already has a point, also completes it;
CROPPING clears the flag and reverts to NAVIGATING. -/
def onMouseUp (props : Props) (bbox : BoundingBox) (st : CompState) (e : PointerEvent) :
    CompState × List Action :=
  let st :=
    if props.viewerState = .ANNOTATING && !props.reminderSeen then
      { st with popupOpen := true }
    else st
  match props.viewerState with
  | .NAVIGATING =>
      let pointerXY := getPointerXY bbox e
      ({ st with
          pointer := { st.pointer with state := .IDLE, now := pointerXY },
          tmpTransform := none }, [])
  | .ANNOTATING =>
      let pointerXYOnImage := getPointerXYOnImage props bbox e
      let acts :=
        Action.addAnnoPoint pointerXYOnImage.x pointerXYOnImage.y props.frame ::
          (if hasInProgressPoint props then [Action.completeAnno] else [])
      (st, acts)
  | .CROPPING =>
      ({ st with cropping := .IDLE }, [Action.setViewerState .NAVIGATING])

/-- `onMouseMove(e)`: in NAVIGATING, track the pointer and, while a drag
is ACTIVE with a live snapshot, propose the snapshot translation plus the
pointer delta divided by the snapshot scale. Outside NAVIGATING only the
`mouseInViewer` flag is set. -/
def onMouseMove (props : Props) (bbox : BoundingBox) (st : CompState) (e : PointerEvent) :
    CompState × List Action :=
  if props.viewerState = .NAVIGATING then
    let pointerXY := getPointerXY bbox e
    let st' := { st with pointer := { st.pointer with now := pointerXY } }
    let acts :=
      match st.tmpTransform with
      | some t =>
          if st.pointer.state = .ACTIVE then
            let dx := pointerXY.x - st.pointer.start.x
            let dy := pointerXY.y - st.pointer.start.y
            [Action.setTranslation (t.translateX + dx / t.scale)
              (t.translateY + dy / t.scale)]
          else []
      | none => []
    (st', acts)
  else
    ({ st with mouseInViewer := true }, [])

/-- `onMouseLeave(e)`: clears `mouseInViewer`; in NAVIGATING also sets the
pointer phase to IDLE. (`tmpTransform` is left untouched.) -/
def onMouseLeave (props : Props) (st : CompState) : CompState × List Action :=
  let st := { st with mouseInViewer := false }
  if props.viewerState = .NAVIGATING then
    ({ st with pointer := { st.pointer with state := .IDLE } }, [])
  else (st, [])

/-- `KEY_CODES.ESCAPE` from `lib/Utility` (standard key code 27); the
keyup listener passes the event's key code to `escapeCrop`. -/
def ESCAPE : ℕ := 27

/-- `escapeCrop(e)`: on an ESCAPE keyup while in CROPPING mode, revert to
NAVIGATING and clear the cropping flag. -/
def escapeCrop (props : Props) (st : CompState) (keyCode : ℕ) : CompState × List Action :=
  if keyCode = ESCAPE ∧ props.viewerState = .CROPPING then
    ({ st with cropping := .IDLE }, [Action.setViewerState .NAVIGATING])
  else (st, [])

/-- `useZoomIn()`: proposes the current scale plus `ZOOM_STEP`. -/
def useZoomIn (props : Props) : List Action :=
  [Action.setScaling (props.scaling + ZOOM_STEP)]

/-- `useZoomOut()`: proposes the current scale minus `ZOOM_STEP`. -/
def useZoomOut (props : Props) : List Action :=
  [Action.setScaling (props.scaling - ZOOM_STEP)]

/-- Modelled from the spec: the `setScaling` handling of the
subject-viewer duck (`src/ducks/subject-viewer`, not among the provided
sources) clamps a proposed scale to the minimum positive floor `0.1`, so
the stored scale never drops below the floor. -/
def setScalingClamp (s : ℚ) : ℚ := max s (1/10)

/-- `ARBITRARY_OFFSET = 2` from `updateSize`. -/
def ARBITRARY_OFFSET : ℚ := 2

/-- The SVG element's attributes written by `updateSize`: the four
`viewBox` numbers and the style width/height. -/
structure SvgElement where
  viewBoxMinX : ℚ
  viewBoxMinY : ℚ
  viewBoxW : ℚ
  viewBoxH : ℚ
  styleWidth : ℚ
  styleHeight : ℚ
deriving DecidableEq, Repr

/-- `updateSize()`: no-op unless both element refs are mounted; otherwise
fits the viewBox `[-w/2, -h/2, w, h]` to the container minus the offset,
sets the style size, and reports the bounding-box size (the laid-out
size, i.e. the style size just set) via `updateViewerSize`. The instance
state `st` is returned untouched. -/
def updateSize (mounted : Bool) (sectionW sectionH : ℚ) (svg : SvgElement)
    (st : CompState) : SvgElement × CompState × List Action :=
  if !mounted then (svg, st, [])
  else
    let w := sectionW - ARBITRARY_OFFSET
    let h := sectionH - ARBITRARY_OFFSET
    let svg' : SvgElement :=
      { viewBoxMinX := -w/2, viewBoxMinY := -h/2, viewBoxW := w, viewBoxH := h,
        styleWidth := w, styleHeight := h }
    (svg', st, [Action.updateViewerSize svg'.styleWidth svg'.styleHeight])

/-- State of the annotations duck: the annotation in progress and the
completed annotations (each a list of points). -/
structure AnnoState where
  annotationInProgress : Option AnnoInProgress
  annotations : List (List Pt)
deriving DecidableEq, Repr

/-- Modelled from the spec: the annotations duck reducers
(`src/ducks/annotations`, not among the provided sources).
`addAnnoPoint` appends one point to the annotation in progress (creating
it when absent); `completeAnno` moves the in-progress annotation to the
completed list; other actions leave the duck unchanged. -/
def annoStep (s : AnnoState) : Action → AnnoState
  | .addAnnoPoint x y _ =>
      let pts :=
        match s.annotationInProgress with
        | some a => a.points.getD [] ++ [⟨x, y⟩]
        | none => [⟨x, y⟩]
      { s with annotationInProgress := some ⟨some pts⟩ }
  | .completeAnno =>
      match s.annotationInProgress with
      | some a =>
          { annotationInProgress := none,
            annotations := s.annotations ++ [a.points.getD []] }
      | none => s
  | _ => s

/-- Fold a dispatched action list through the modelled annotations duck. -/
def annoRun (s : AnnoState) (acts : List Action) : AnnoState :=
  acts.foldl annoStep s

/-- Claim C1: for every transform with positive scale and every image
point `p`, an event whose viewer-local position is the forward render
transform of `p` (scale, then translate, then rotate, center-origin with
the viewport-center and image-center offsets) is mapped back to `p` by
`getPointerXYOnImage`: the inversion is exact over the rationals given
the Pythagorean identity for the rotation's trigonometric values. -/
theorem getPointerXYOnImage_inverts_render
    (props : Props) (bbox : BoundingBox) (e : PointerEvent) (p : Pt)
    (hs : 0 < props.scaling)
    (htrig : props.cosRot ^ 2 + props.sinRot ^ 2 = 1)
    (he : getPointerXY bbox e = toDeviceSpace props p) :
    getPointerXYOnImage props bbox e = p := by
  obtain ⟨px, py⟩ := p
  have hs0 : props.scaling ≠ 0 := ne_of_gt hs
  have h1 : ((toDeviceSpace props ⟨px, py⟩).x - props.viewerSize.width / 2)
        / props.scaling - props.translationX
      = (px - props.imageSize.width / 2) * props.cosRot
        - (py - props.imageSize.height / 2) * props.sinRot := by
    simp only [toDeviceSpace]
    field_simp
    ring
  have h2 : ((toDeviceSpace props ⟨px, py⟩).y - props.viewerSize.height / 2)
        / props.scaling - props.translationY
      = (px - props.imageSize.width / 2) * props.sinRot
        + (py - props.imageSize.height / 2) * props.cosRot := by
    simp only [toDeviceSpace]
    field_simp
    ring
  simp only [getPointerXYOnImage]
  rw [he, if_neg hs0, h1, h2, Pt.mk.injEq]
  constructor
  · linear_combination (px - props.imageSize.width / 2) * htrig
  · linear_combination (py - props.imageSize.height / 2) * htrig

/-- Concrete transform for the C1 witness: scale 2, translation (3, -1),
rotation with cosine 3/5 and sine 4/5, a 100x60 viewer and a 40x20
image. -/
def props1 : Props :=
  { scaling := 2, translationX := 3, translationY := -1,
    cosRot := 3/5, sinRot := 4/5,
    viewerSize := ⟨100, 60⟩, imageSize := ⟨40, 20⟩,
    viewerState := .NAVIGATING, annotationInProgress := none,
    reminderSeen := false, frame := 0 }

/-- Bounding box for the C1 witness. -/
def bbox1 : BoundingBox := ⟨5, 7, 100, 60⟩

/-- Mouse event for the C1 witness, at the device position of image point
`(7, 9)` under `props1`. -/
def e1 : PointerEvent := ⟨some 47, some 13, []⟩

/-- Witness for C1 at the concrete transform `props1` and image point
`(7, 9)`. -/
theorem getPointerXYOnImage_inverts_render_witness :
    (0 : ℚ) < props1.scaling ∧
    props1.cosRot ^ 2 + props1.sinRot ^ 2 = 1 ∧
    getPointerXY bbox1 e1 = toDeviceSpace props1 ⟨7, 9⟩ ∧
    getPointerXYOnImage props1 bbox1 e1 = ⟨7, 9⟩ :=
  ⟨by norm_num [props1], by norm_num [props1],
    by norm_num [getPointerXY, toDeviceSpace, jsTruthy, props1, bbox1, e1],
    getPointerXYOnImage_inverts_render props1 bbox1 e1 ⟨7, 9⟩
      (by norm_num [props1]) (by norm_num [props1])
      (by norm_num [getPointerXY, toDeviceSpace, jsTruthy, props1, bbox1, e1])⟩

/-- Claim C2: in NAVIGATING mode, while a drag is ACTIVE with a live
snapshot, every pointer-move proposes the snapshot translation plus the
pointer delta (current minus drag-start) divided by the snapshot scale,
regardless of the current `props.scaling`. -/
theorem onMouseMove_navigating_drag
    (props : Props) (bbox : BoundingBox) (st : CompState) (e : PointerEvent)
    (t : TmpTransform)
    (hmode : props.viewerState = .NAVIGATING)
    (hact : st.pointer.state = .ACTIVE)
    (ht : st.tmpTransform = some t) :
    (onMouseMove props bbox st e).2 =
      [Action.setTranslation
        (t.translateX + ((getPointerXY bbox e).x - st.pointer.start.x) / t.scale)
        (t.translateY + ((getPointerXY bbox e).y - st.pointer.start.y) / t.scale)] := by
  simp [onMouseMove, hmode, ht, hact]

/-- Drag-start state for the C2 witness: drag started at viewport point
`(100, 100)` with snapshot scale 2 and zero translation. -/
def st2 : CompState :=
  { pointer := { start := ⟨100, 100⟩, now := ⟨100, 100⟩, state := .ACTIVE },
    rectangleStart := ⟨0, 0⟩, cropping := .IDLE,
    tmpTransform := some ⟨2, 0, 0⟩, mouseInViewer := true, popupOpen := false }

/-- Props for the C2 witness; the current scale is 7, different from the
snapshot scale 2, so the witness shows the snapshot scale is the one
used. -/
def props2 : Props :=
  { scaling := 7, translationX := 0, translationY := 0, cosRot := 1, sinRot := 0,
    viewerSize := ⟨100, 60⟩, imageSize := ⟨40, 20⟩,
    viewerState := .NAVIGATING, annotationInProgress := none,
    reminderSeen := false, frame := 0 }

/-- Bounding box at the origin for the C2 witness. -/
def bbox2 : BoundingBox := ⟨0, 0, 100, 60⟩

/-- Pointer-move event for the C2 witness, at viewport point
`(150, 130)`. -/
def e2 : PointerEvent := ⟨some 150, some 130, []⟩

/-- Witness for C2: the drag from `(100, 100)` to `(150, 130)` with
snapshot scale 2 proposes translation `(25, 15)`. -/
theorem onMouseMove_navigating_drag_witness :
    (onMouseMove props2 bbox2 st2 e2).2 = [Action.setTranslation 25 15] := by
  rw [onMouseMove_navigating_drag props2 bbox2 st2 e2 ⟨2, 0, 0⟩ rfl rfl rfl]
  norm_num [getPointerXY, jsTruthy, bbox2, e2, st2]

/-- Claim C3: a zoom-in proposes the current scale plus the fixed step
`0.1` and a zoom-out proposes it minus `0.1`; the store clamp (modelled
from the spec) keeps every zoom-out result at the floor `0.1` or above,
with `1.0 ↦ 0.9` and `0.15 ↦ 0.1` as instances. -/
theorem zoom_fixed_step_and_floor (props : Props) :
    useZoomIn props = [Action.setScaling (props.scaling + 1/10)] ∧
    useZoomOut props = [Action.setScaling (props.scaling - 1/10)] ∧
    (1/10 : ℚ) ≤ setScalingClamp (props.scaling - 1/10) ∧
    setScalingClamp ((1 : ℚ) - 1/10) = 9/10 ∧
    setScalingClamp ((15/100 : ℚ) - 1/10) = 1/10 := by
  refine ⟨rfl, rfl, le_max_right _ _, ?_, ?_⟩
  · rw [setScalingClamp]
    norm_num
  · rw [setScalingClamp]
    norm_num

/-- Claim C6: when the current scale is `0`, `getPointerXYOnImage`
performs no inversion (hence no division by the zero scale) and returns
the pre-inversion viewport-local pointer coordinate. -/
theorem getPointerXYOnImage_scale_zero
    (props : Props) (bbox : BoundingBox) (e : PointerEvent)
    (h : props.scaling = 0) :
    getPointerXYOnImage props bbox e = getPointerXY bbox e := by
  simp [getPointerXYOnImage, h]

/-- Props with scale `0` for the C6 witness. -/
def props6 : Props :=
  { scaling := 0, translationX := 3, translationY := -1, cosRot := 1, sinRot := 0,
    viewerSize := ⟨100, 60⟩, imageSize := ⟨40, 20⟩,
    viewerState := .ANNOTATING, annotationInProgress := none,
    reminderSeen := false, frame := 0 }

/-- Witness for C6: at scale `0` the mapping returns the viewport-local
pointer coordinate unchanged. -/
theorem getPointerXYOnImage_scale_zero_witness :
    getPointerXYOnImage props6 bbox1 e1 = getPointerXY bbox1 e1 :=
  getPointerXYOnImage_scale_zero props6 bbox1 e1 rfl

/-- Props for the C4 two-click scenario, first click: ANNOTATING mode
with no annotation in progress, identity transform. -/
def propsA : Props :=
  { scaling := 1, translationX := 0, translationY := 0, cosRot := 1, sinRot := 0,
    viewerSize := ⟨0, 0⟩, imageSize := ⟨0, 0⟩,
    viewerState := .ANNOTATING, annotationInProgress := none,
    reminderSeen := true, frame := 0 }

/-- Idle component state for the C4 and C5 witnesses. -/
def stA : CompState :=
  { pointer := { start := ⟨0, 0⟩, now := ⟨0, 0⟩, state := .IDLE },
    rectangleStart := ⟨0, 0⟩, cropping := .IDLE,
    tmpTransform := none, mouseInViewer := true, popupOpen := false }

/-- Bounding box at the origin for the C4 and C5 witnesses. -/
def bboxA : BoundingBox := ⟨0, 0, 100, 100⟩

/-- First-click event for the C4 scenario, at image point `(3, 4)`. -/
def eA : PointerEvent := ⟨some 3, some 4, []⟩

/-- Second-click event for the C4 scenario, at image point `(5, 6)`. -/
def eB : PointerEvent := ⟨some 5, some 6, []⟩

/-- Props for the C4 scenario, second click: the annotation in progress
is the one produced by running the first click's dispatches through the
modelled annotations duck. -/
def propsB : Props :=
  { propsA with
      annotationInProgress :=
        (annoRun ⟨none, []⟩ ((onMouseUp propsA bboxA stA eA).2)).annotationInProgress }

/-- Claim C4: in ANNOTATING mode every pointer-up dispatches exactly one
image-space append, followed by a complete-annotation dispatch exactly
when the annotation in progress already has at least one point; in the
concrete two-click run the first click appends without completing, the
second appends and completes, and the completed annotation has exactly
the two clicked points. -/
theorem annotating_mouseup_appends_and_completes :
    (∀ (props : Props) (bbox : BoundingBox) (st : CompState) (e : PointerEvent),
      props.viewerState = .ANNOTATING →
      (onMouseUp props bbox st e).2 =
        Action.addAnnoPoint (getPointerXYOnImage props bbox e).x
            (getPointerXYOnImage props bbox e).y props.frame ::
          (if hasInProgressPoint props then [Action.completeAnno] else [])) ∧
    (onMouseUp propsA bboxA stA eA).2 = [Action.addAnnoPoint 3 4 0] ∧
    (onMouseUp propsB bboxA stA eB).2 =
      [Action.addAnnoPoint 5 6 0, Action.completeAnno] ∧
    (annoRun (annoRun ⟨none, []⟩ ((onMouseUp propsA bboxA stA eA).2))
        ((onMouseUp propsB bboxA stA eB).2)).annotations = [[⟨3, 4⟩, ⟨5, 6⟩]] := by
  have hgen : ∀ (props : Props) (bbox : BoundingBox) (st : CompState) (e : PointerEvent),
      props.viewerState = .ANNOTATING →
      (onMouseUp props bbox st e).2 =
        Action.addAnnoPoint (getPointerXYOnImage props bbox e).x
            (getPointerXYOnImage props bbox e).y props.frame ::
          (if hasInProgressPoint props then [Action.completeAnno] else []) := by
    intro props bbox st e h
    simp [onMouseUp, h]
  have hA : (onMouseUp propsA bboxA stA eA).2 = [Action.addAnnoPoint 3 4 0] := by
    rw [hgen propsA bboxA stA eA rfl]
    norm_num [getPointerXYOnImage, getPointerXY, jsTruthy, hasInProgressPoint,
      propsA, bboxA, eA]
  have hInP : propsB.annotationInProgress = some ⟨some [⟨3, 4⟩]⟩ := by
    show (annoRun ⟨none, []⟩ ((onMouseUp propsA bboxA stA eA).2)).annotationInProgress = _
    rw [hA]
    simp [annoRun, annoStep]
  have hHas : hasInProgressPoint propsB = true := by
    simp [hasInProgressPoint, hInP]
  have hB : (onMouseUp propsB bboxA stA eB).2 =
      [Action.addAnnoPoint 5 6 0, Action.completeAnno] := by
    rw [hgen propsB bboxA stA eB rfl]
    simp only [hHas, if_true]
    norm_num [getPointerXYOnImage, getPointerXY, jsTruthy, propsB, propsA, bboxA, eB]
  refine ⟨hgen, hA, hB, ?_⟩
  rw [hA, hB]
  simp [annoRun, annoStep]

/-- Witness for C4, applying the general part at the first-click
instance. -/
theorem annotating_mouseup_appends_and_completes_witness :
    (onMouseUp propsA bboxA stA eA).2 =
      Action.addAnnoPoint (getPointerXYOnImage propsA bboxA eA).x
          (getPointerXYOnImage propsA bboxA eA).y propsA.frame ::
        (if hasInProgressPoint propsA then [Action.completeAnno] else []) :=
  annotating_mouseup_appends_and_completes.1 propsA bboxA stA eA rfl

/-- Claim C5: in CROPPING mode, pointer-down records the image-space
pointer position as the rectangle start and sets the cropping flag
ACTIVE without dispatching; pointer-up clears the flag and dispatches
only the mode change back to NAVIGATING; an ESCAPE keyup while in
CROPPING mode likewise clears the flag and dispatches only the mode
change, committing no rectangle. -/
theorem cropping_one_shot :
    (∀ (props : Props) (bbox : BoundingBox) (st : CompState) (e : PointerEvent),
      props.viewerState = .CROPPING →
      (onMouseDown props bbox st e).1.rectangleStart = getPointerXYOnImage props bbox e ∧
      (onMouseDown props bbox st e).1.cropping = .ACTIVE ∧
      (onMouseDown props bbox st e).2 = []) ∧
    (∀ (props : Props) (bbox : BoundingBox) (st : CompState) (e : PointerEvent),
      props.viewerState = .CROPPING →
      (onMouseUp props bbox st e).1.cropping = .IDLE ∧
      (onMouseUp props bbox st e).2 = [Action.setViewerState .NAVIGATING]) ∧
    (∀ (props : Props) (st : CompState),
      props.viewerState = .CROPPING →
      (escapeCrop props st ESCAPE).1.cropping = .IDLE ∧
      (escapeCrop props st ESCAPE).2 = [Action.setViewerState .NAVIGATING]) := by
  refine ⟨?_, ?_, ?_⟩
  · intro props bbox st e h
    refine ⟨?_, ?_, ?_⟩ <;> simp [onMouseDown, h]
  · intro props bbox st e h
    refine ⟨?_, ?_⟩ <;> simp [onMouseUp, h]
  · intro props st h
    refine ⟨?_, ?_⟩ <;> simp [escapeCrop, h]

/-- Props in CROPPING mode for the C5 witness. -/
def propsC : Props :=
  { propsA with viewerState := .CROPPING }

/-- Witness for C5 at concrete inputs: the pointer-down records `(3, 4)`
and the pointer-up and the ESCAPE key both revert to NAVIGATING with the
flag cleared. -/
theorem cropping_one_shot_witness :
    (onMouseDown propsC bboxA stA eA).1.rectangleStart = getPointerXYOnImage propsC bboxA eA ∧
    (onMouseDown propsC bboxA stA eA).1.cropping = .ACTIVE ∧
    (onMouseUp propsC bboxA stA eA).1.cropping = .IDLE ∧
    (onMouseUp propsC bboxA stA eA).2 = [Action.setViewerState .NAVIGATING] ∧
    (escapeCrop propsC stA ESCAPE).1.cropping = .IDLE ∧
    (escapeCrop propsC stA ESCAPE).2 = [Action.setViewerState .NAVIGATING] :=
  ⟨(cropping_one_shot.1 propsC bboxA stA eA rfl).1,
    (cropping_one_shot.1 propsC bboxA stA eA rfl).2.1,
    (cropping_one_shot.2.1 propsC bboxA stA eA rfl).1,
    (cropping_one_shot.2.1 propsC bboxA stA eA rfl).2,
    (cropping_one_shot.2.2 propsC stA rfl).1,
    (cropping_one_shot.2.2 propsC stA rfl).2⟩

/-- An event carrying neither mouse coordinates nor a touch payload, for
the C7 counterexample. -/
def e7 : PointerEvent := ⟨none, none, []⟩

/-- A bounding box with a nonzero top-left offset, for the C7
counterexample. -/
def bbox7 : BoundingBox := ⟨10, 20, 100, 100⟩

/-- Counterexample to C7 as stated: with the viewer's bounding box at
`(10, 20)`, an event with no coordinate payload maps to `(-10, -20)`,
not to the claimed `(0, 0)`. -/
theorem getPointerXY_missing_coords_cex :
    e7.clientX = none ∧ e7.clientY = none ∧ e7.touches = [] ∧
    getPointerXY bbox7 e7 ≠ ⟨0, 0⟩ := by
  refine ⟨rfl, rfl, rfl, ?_⟩
  norm_num [getPointerXY, jsTruthy, bbox7, e7]

/-- Claim C7 (amended): for every event carrying neither mouse
coordinates nor a touch payload, `getPointerXY` does not fail: it
defaults the client position to `(0, 0)` and returns that default minus
the bounding box's top-left offset, which is `{x: 0, y: 0}` exactly when
the offset is zero (as in the unmounted-fallback bounding box). -/
theorem getPointerXY_missing_coords_defaults
    (bbox : BoundingBox) (e : PointerEvent)
    (hx : e.clientX = none) (hy : e.clientY = none) (ht : e.touches = []) :
    getPointerXY bbox e = ⟨0 - bbox.left, 0 - bbox.top⟩ := by
  simp [getPointerXY, hx, hy, ht, jsTruthy]

/-- Witness for the amended C7 at the concrete event `e7` and bounding
box `bbox7`. -/
theorem getPointerXY_missing_coords_defaults_witness :
    getPointerXY bbox7 e7 = ⟨0 - bbox7.left, 0 - bbox7.top⟩ :=
  getPointerXY_missing_coords_defaults bbox7 e7 rfl rfl rfl

/-- Claim C8: `updateSize` is idempotent for a fixed container size (the
second run produces the same SVG geometry and the same dispatched size
report), returns the instance state untouched (pointer state included),
and dispatches only `updateViewerSize` — never a transform or mode
action. -/
theorem updateSize_idempotent (mounted : Bool) (sw sh : ℚ)
    (svg : SvgElement) (st : CompState) :
    (updateSize mounted sw sh (updateSize mounted sw sh svg st).1
        (updateSize mounted sw sh svg st).2.1).1 = (updateSize mounted sw sh svg st).1 ∧
    (updateSize mounted sw sh (updateSize mounted sw sh svg st).1
        (updateSize mounted sw sh svg st).2.1).2 = (updateSize mounted sw sh svg st).2 ∧
    (updateSize mounted sw sh svg st).2.1 = st ∧
    (updateSize mounted sw sh svg st).2.2 =
      (if mounted then
        [Action.updateViewerSize (sw - ARBITRARY_OFFSET) (sh - ARBITRARY_OFFSET)]
      else []) := by
  cases mounted <;> simp [updateSize]

/-- Counterexample to C9 as stated: in NAVIGATING mode, a pointer-leave
during an active drag sets the phase to IDLE but does not discard the
drag snapshot — `tmpTransform` still holds the captured transform. -/
theorem navigating_leave_keeps_snapshot_cex :
    props2.viewerState = .NAVIGATING ∧
    st2.tmpTransform = some ⟨2, 0, 0⟩ ∧
    (onMouseLeave props2 st2).1.pointer.state = .IDLE ∧
    (onMouseLeave props2 st2).1.tmpTransform = some ⟨2, 0, 0⟩ ∧
    (onMouseLeave props2 st2).1.tmpTransform ≠ none := by
  refine ⟨rfl, rfl, ?_, ?_, ?_⟩ <;> simp [onMouseLeave, props2, st2]

/-- Claim C9 (amended): in NAVIGATING mode, a pointer-up sets the phase
to IDLE and discards the snapshot; a pointer-leave sets the phase to
IDLE but retains `tmpTransform` unchanged (the snapshot is inert, since
`onMouseMove` only uses it while the phase is ACTIVE). -/
theorem navigating_up_discards_leave_retains
    (props : Props) (bbox : BoundingBox) (st : CompState) (e : PointerEvent)
    (hmode : props.viewerState = .NAVIGATING) :
    (onMouseUp props bbox st e).1.pointer.state = .IDLE ∧
    (onMouseUp props bbox st e).1.tmpTransform = none ∧
    (onMouseLeave props st).1.pointer.state = .IDLE ∧
    (onMouseLeave props st).1.tmpTransform = st.tmpTransform := by
  refine ⟨?_, ?_, ?_, ?_⟩ <;> simp [onMouseUp, onMouseLeave, hmode]

/-- Witness for the amended C9 at the concrete drag state `st2`. -/
theorem navigating_up_discards_leave_retains_witness :
    (onMouseUp props2 bbox2 st2 e2).1.pointer.state = .IDLE ∧
    (onMouseUp props2 bbox2 st2 e2).1.tmpTransform = none ∧
    (onMouseLeave props2 st2).1.pointer.state = .IDLE ∧
    (onMouseLeave props2 st2).1.tmpTransform = st2.tmpTransform :=
  navigating_up_discards_leave_retains props2 bbox2 st2 e2 rfl

/-- Claim C10: a mouse event whose `clientX` or `clientY` is exactly `0`
fails the truthiness test, so `getPointerXY` behaves as if the mouse
coordinates were absent, falling back to the touch payload; with no
touch payload the event is mapped as if its client position were
`(0, 0)`, minus the bounding box offset. -/
theorem getPointerXY_zero_client_falsy
    (bbox : BoundingBox) (e : PointerEvent)
    (h : e.clientX = some 0 ∨ e.clientY = some 0) :
    getPointerXY bbox e = getPointerXY bbox ⟨none, none, e.touches⟩ ∧
    (e.touches = [] → getPointerXY bbox e = ⟨0 - bbox.left, 0 - bbox.top⟩) := by
  have hm : (jsTruthy e.clientX && jsTruthy e.clientY) = false := by
    rcases h with h | h <;> simp [h, jsTruthy]
  constructor
  · simp only [getPointerXY]
    rw [hm]
    simp [jsTruthy]
  · intro ht
    simp only [getPointerXY, ht]
    rw [hm]
    simp

/-- A genuine left-edge click for the C10 witness: `clientX` is exactly
`0`, `clientY` is `7`, no touch payload. -/
def e10 : PointerEvent := ⟨some 0, some 7, []⟩

/-- Witness for C10: the left-edge click is treated as a missing mouse
payload and, having no touches, maps to `(0, 0)` minus the bounding box
offset. -/
theorem getPointerXY_zero_client_falsy_witness :
    getPointerXY bbox7 e10 = getPointerXY bbox7 ⟨none, none, e10.touches⟩ ∧
    getPointerXY bbox7 e10 = ⟨0 - bbox7.left, 0 - bbox7.top⟩ :=
  ⟨(getPointerXY_zero_client_falsy bbox7 e10 (Or.inl rfl)).1,
    (getPointerXY_zero_client_falsy bbox7 e10 (Or.inl rfl)).2 rfl⟩

end ASM
